import Mathlib

/-!
Shallow embedding of the Tornado-Three.js repository core, and proofs about it.

The embedding covers:
* the `Tornado` class of `src/unnamed/part_002` (particle kinematics in
  `update`, and the analytic force/torque function `calculateForceOnObject`);
* the `BuildingSlots` class of `src/scripts/controles_mov.js` (slot/building
  registry, `placeBuilding`, `demolishBuilding`, `damageBuilding`, and the
  per-frame damage scan of `applyTornadoForces`);
* the per-body force application of `ModelLoader.applyTornadoForces`
  (`src/scripts/model_loader.js`) and of the debris branch of
  `BuildingSlots.applyTornadoForces`.

JavaScript numbers are idealised as real numbers.  External collaborators
(three.js scene graph, GLTF loader, cannon-es world) are modelled through the
data they hand to the core: a load either rejects or yields the loaded
object-tree data, and the physics world is the collection of objects that were
passed to `addBody` / `removeBody`.  Objects are identified by numeric ids
(standing for JavaScript object identity), and string keys of the ad hoc
registries are abstracted as numeric keys.
-/

namespace Tjs

/-- Embedding of `THREE.Vector3`: a triple of real coordinates. -/
@[ext]
structure Vec3 where
  x : ℝ
  y : ℝ
  z : ℝ

/-- Componentwise vector addition (`Vector3.add` / `vadd`). -/
def Vec3.add (a b : Vec3) : Vec3 := ⟨a.x + b.x, a.y + b.y, a.z + b.z⟩

/-- Componentwise vector subtraction (`Vector3.sub`). -/
def Vec3.sub (a b : Vec3) : Vec3 := ⟨a.x - b.x, a.y - b.y, a.z - b.z⟩

/-- Scalar multiple of a vector (`Vector3.multiplyScalar`, `addScaledVector`). -/
def Vec3.scale (k : ℝ) (a : Vec3) : Vec3 := ⟨k * a.x, k * a.y, k * a.z⟩

/-- Squared Euclidean length of a vector (`Vector3.lengthSq`). -/
def Vec3.normSq (a : Vec3) : ℝ := a.x ^ 2 + a.y ^ 2 + a.z ^ 2

/-- Euclidean length of a vector (`Vector3.length`). -/
noncomputable def Vec3.length (a : Vec3) : ℝ := Real.sqrt a.normSq

/-- Distance between two points (`Vector3.distanceTo`): full 3D distance. -/
noncomputable def Vec3.distanceTo (a b : Vec3) : ℝ := (Vec3.sub a b).length

/-- One particle of the tornado's particle pool (`src/unnamed/part_002`,
`createGeometryAndMesh`). -/
structure Particle where
  angle : ℝ
  height : ℝ
  targetRadiusFactor : ℝ
  spinSpeed : ℝ
  upwardSpeed : ℝ
  phase : ℝ
  turbulenceOffset : ℝ
  radialOscillation : ℝ
  radialPhase : ℝ
  chaosInitial : ℝ
  chaosFactor : ℝ
  chaosXFactor : ℝ
  chaosZFactor : ℝ
  chaosYFactor : ℝ

/-- State of the `Tornado` class (`src/unnamed/part_002`): instance fields and
the particle array. -/
structure Tornado where
  particleCount : ℕ
  maxHeight : ℝ
  maxRadius : ℝ
  coreRadius : ℝ
  position : Vec3
  velocity : Vec3
  tornadoForceStrength : ℝ
  time : ℝ
  formationTime : ℝ
  formationDuration : ℝ
  particles : List Particle

/-- Body of `Tornado.calculateMaxRadius(height)` with the instance fields it
reads passed explicitly: `maxRadius * (0.15 + (height/maxHeight)^0.7 * 0.85)`. -/
noncomputable def calculateMaxRadiusAux (maxHeight maxRadius height : ℝ) : ℝ :=
  let normalized := height / maxHeight
  let profile := 0.15 + Real.rpow normalized 0.7 * 0.85
  maxRadius * profile

/-- Embedding of `Tornado.calculateMaxRadius(height)`: radius-at-height profile. -/
noncomputable def Tornado.calculateMaxRadius (t : Tornado) (height : ℝ) : ℝ :=
  calculateMaxRadiusAux t.maxHeight t.maxRadius height

/-- Embedding of `Tornado.calculateAngularVelocity(radius, maxRadiusAtHeight, baseSpeed)`:
resonance profile peaking near 80% of the local max radius. -/
noncomputable def Tornado.calculateAngularVelocity
    (radius maxRadiusAtHeight baseSpeed : ℝ) : ℝ :=
  let normalized := radius / maxRadiusAtHeight
  let velocityProfile := Real.exp (-((normalized - 0.8) * 3) ^ 2)
  baseSpeed * (0.3 + velocityProfile * 2)

/-- The per-particle body of the loop in `Tornado.update` (lines 115-165 of
`src/unnamed/part_002`), restricted to the particle state it mutates (the
write into the position buffer is the rendered output and mutates no particle
state).  `rnd` supplies the three `Math.random()` draws used when the particle
is recycled. -/
noncomputable def updateParticle (maxHeight maxRadius time currentCeiling globalChaosFactor delta : ℝ)
    (rnd : ℝ × ℝ × ℝ) (p : Particle) : Particle :=
  let p1 : Particle := { p with chaosFactor := globalChaosFactor,
                                height := p.height + p.upwardSpeed * delta }
  let p2 : Particle :=
    if p1.height > maxHeight ∨ p1.height > currentCeiling then
      { p1 with height := 0,
                angle := rnd.1 * 2 * Real.pi,
                phase := rnd.2.1 * 2 * Real.pi,
                radialPhase := rnd.2.2 * 2 * Real.pi }
    else p1
  let maxRadiusAtHeight := calculateMaxRadiusAux maxHeight maxRadius p2.height
  let oscillation := Real.sin (time * 2 + p2.radialPhase) * p2.radialOscillation
  let targetRadius := maxRadiusAtHeight * (p2.targetRadiusFactor + oscillation * 0.1)
  let angularVel := Tornado.calculateAngularVelocity targetRadius maxRadiusAtHeight p2.spinSpeed
  { p2 with angle := p2.angle + angularVel * delta }

/-- Model of `Array.prototype.forEach`-with-index / an indexed `for` loop over a list. -/
def mapWithIndex (f : ℕ → α → β) : ℕ → List α → List β
  | _, [] => []
  | i, a :: as => f i a :: mapWithIndex f (i + 1) as

/-- Embedding of `Tornado.update(delta)` (`src/unnamed/part_002`, lines 99-168): advance
time and formation time, move the field center, compute the formation ceiling
and global chaos factor, and update every particle.  `rnds i` supplies the
random draws used if particle `i` is recycled in this step. -/
noncomputable def Tornado.update (rnds : ℕ → ℝ × ℝ × ℝ) (delta : ℝ) (t : Tornado) : Tornado :=
  let time := t.time + delta
  let formationTime := t.formationTime + delta
  let position := Vec3.add t.position (Vec3.scale delta t.velocity)
  let progress := min (formationTime / t.formationDuration) 1
  let currentCeiling := t.maxHeight * progress
  let globalChaosFactor := 1 - progress
  { t with time := time,
           formationTime := formationTime,
           position := position,
           particles := mapWithIndex
             (fun i p => updateParticle t.maxHeight t.maxRadius time currentCeiling
                          globalChaosFactor delta (rnds i) p) 0 t.particles }

/-- Embedding of `Tornado.calculateForceOnObject(objectPos, mass)` (`src/unnamed/part_002`,
lines 186-218): the analytic force/torque field.  Returns the pair
(force, torque). -/
noncomputable def Tornado.calculateForceOnObject (t : Tornado) (objectPos : Vec3) (mass : ℝ) :
    Vec3 × Vec3 :=
  let tornadoCenter : Vec3 := ⟨t.position.x, objectPos.y, t.position.z⟩
  let dirToCenter0 := Vec3.sub tornadoCenter objectPos
  let distance := dirToCenter0.length
  if distance < t.maxRadius ∧ distance > 0.1 then
    let dirToCenter := Vec3.scale (1 / distance) dirToCenter0
    let normalizedDistance := distance / t.maxRadius
    let falloff := (1 - normalizedDistance) ^ 2
    let baseForce := t.tornadoForceStrength * falloff / mass
    let force1 := Vec3.scale (baseForce * 0.7) dirToCenter
    let liftForce := 200 * falloff / mass
    let force2 : Vec3 := ⟨force1.x, force1.y + liftForce, force1.z⟩
    let tangential : Vec3 := ⟨-dirToCenter.z, 0, dirToCenter.x⟩
    let force3 := Vec3.add force2 (Vec3.scale (baseForce * 0.5) tangential)
    let torque : Vec3 := ⟨Real.sin (t.time * 2) * baseForce * 0.3,
                          baseForce * 1.2,
                          Real.cos (t.time * 2) * baseForce * 0.3⟩
    (force3, torque)
  else
    (⟨0, 0, 0⟩, ⟨0, 0, 0⟩)

/-- The distance used by `calculateForceOnObject`: the field center is first
projected to the query's height (`tornadoCenter.y = objectPos.y`), so this is
the planar (horizontal) distance from the query position to the field
center. -/
noncomputable def Tornado.planarDistance (t : Tornado) (objectPos : Vec3) : ℝ :=
  (Vec3.sub ⟨t.position.x, objectPos.y, t.position.z⟩ objectPos).length

/-- The quantity `falloff` as computed on line 200 of `src/unnamed/part_002`. -/
noncomputable def Tornado.falloffAt (t : Tornado) (objectPos : Vec3) : ℝ :=
  (1 - t.planarDistance objectPos / t.maxRadius) ^ 2

lemma Vec3.length_nonneg (a : Vec3) : 0 ≤ a.length := Real.sqrt_nonneg _

/-- Inside the field (dead zone excluded), `calculateForceOnObject` evaluates
to the closed form read off from lines 197-214 of the source. -/
lemma calculateForceOnObject_inside (t : Tornado) (p : Vec3) (m : ℝ)
    (h1 : 0.1 < t.planarDistance p) (h2 : t.planarDistance p < t.maxRadius) :
    t.calculateForceOnObject p m =
      (⟨0.7 * (t.tornadoForceStrength * t.falloffAt p / m) * ((t.position.x - p.x) / t.planarDistance p)
          - 0.5 * (t.tornadoForceStrength * t.falloffAt p / m) * ((t.position.z - p.z) / t.planarDistance p),
        200 * t.falloffAt p / m,
        0.7 * (t.tornadoForceStrength * t.falloffAt p / m) * ((t.position.z - p.z) / t.planarDistance p)
          + 0.5 * (t.tornadoForceStrength * t.falloffAt p / m) * ((t.position.x - p.x) / t.planarDistance p)⟩,
       ⟨Real.sin (t.time * 2) * (t.tornadoForceStrength * t.falloffAt p / m) * 0.3,
        t.tornadoForceStrength * t.falloffAt p / m * 1.2,
        Real.cos (t.time * 2) * (t.tornadoForceStrength * t.falloffAt p / m) * 0.3⟩) := by
  have hcond : (Vec3.sub ⟨t.position.x, p.y, t.position.z⟩ p).length < t.maxRadius ∧
      (Vec3.sub ⟨t.position.x, p.y, t.position.z⟩ p).length > 0.1 := ⟨h2, h1⟩
  simp only [Tornado.calculateForceOnObject, Tornado.falloffAt, Tornado.planarDistance] at *
  rw [if_pos hcond]
  have hsub : Vec3.sub ⟨t.position.x, p.y, t.position.z⟩ p =
      ⟨t.position.x - p.x, p.y - p.y, t.position.z - p.z⟩ := rfl
  rw [hsub]
  simp only [Vec3.add, Vec3.scale, Prod.mk.injEq, Vec3.mk.injEq]
  repeat' apply And.intro
  all_goals (first | rfl | ring1 | ring_nf)

/-- Outside the field radius, or inside the central dead zone, the function
returns the zero pair. -/
lemma calculateForceOnObject_outside (t : Tornado) (p : Vec3) (m : ℝ)
    (h : t.maxRadius ≤ t.planarDistance p ∨ t.planarDistance p ≤ 0.1) :
    t.calculateForceOnObject p m = (⟨0, 0, 0⟩, ⟨0, 0, 0⟩) := by
  simp only [Tornado.calculateForceOnObject, Tornado.planarDistance] at *
  rw [if_neg]
  rintro ⟨hlt, hgt⟩
  rcases h with h | h
  · exact absurd hlt (not_lt.mpr h)
  · exact absurd hgt (not_lt.mpr h)

/-- C1: for every query position and every mass, if the planar distance from
the query position to the field center is at least `maxRadius`, or at most
`0.1` (the dead zone), then `calculateForceOnObject` returns zero force and
zero torque; the normalization branch is never reached. -/
theorem calculateForceOnObject_dead_zone (t : Tornado) (p : Vec3) (m : ℝ)
    (h : t.maxRadius ≤ t.planarDistance p ∨ t.planarDistance p ≤ 0.1) :
    t.calculateForceOnObject p m = (⟨0, 0, 0⟩, ⟨0, 0, 0⟩) :=
  calculateForceOnObject_outside t p m h

/-- Concrete tornado state used in witnesses: the class-field defaults of
`src/unnamed/part_002` together with the constructor's time fields. -/
noncomputable def tornadoDefault : Tornado :=
  { particleCount := 10000, maxHeight := 50, maxRadius := 30, coreRadius := 5.0,
    position := ⟨0, 0, 80⟩, velocity := ⟨0, 0, 0⟩, tornadoForceStrength := 1500,
    time := 0, formationTime := 0, formationDuration := 0.01, particles := [] }

lemma planarDistance_default_far : tornadoDefault.planarDistance ⟨100, 0, 80⟩ = 100 := by
  simp only [Tornado.planarDistance, tornadoDefault, Vec3.sub, Vec3.length, Vec3.normSq]
  rw [show (0:ℝ) - 100 = -100 by norm_num]
  rw [show ((-100:ℝ)) ^ 2 + (0 - 0) ^ 2 + (80 - 80) ^ 2 = 100 ^ 2 by norm_num]
  exact Real.sqrt_sq (by norm_num)

/-- Witness for C1: the dead-zone theorem applied at a concrete point 100
units from the field center. -/
theorem calculateForceOnObject_dead_zone_witness :
    (tornadoDefault.maxRadius ≤ tornadoDefault.planarDistance ⟨100, 0, 80⟩ ∨
      tornadoDefault.planarDistance ⟨100, 0, 80⟩ ≤ 0.1) ∧
    tornadoDefault.calculateForceOnObject ⟨100, 0, 80⟩ 5 = (⟨0, 0, 0⟩, ⟨0, 0, 0⟩) := by
  have hd : tornadoDefault.maxRadius ≤ tornadoDefault.planarDistance ⟨100, 0, 80⟩ ∨
      tornadoDefault.planarDistance ⟨100, 0, 80⟩ ≤ 0.1 := by
    left
    rw [planarDistance_default_far]
    norm_num [tornadoDefault]
  exact ⟨hd, calculateForceOnObject_dead_zone tornadoDefault ⟨100, 0, 80⟩ 5 hd⟩

lemma Vec3.normSq_nonneg (a : Vec3) : 0 ≤ a.normSq := by
  unfold Vec3.normSq
  positivity

/-- Squared norm of the force returned inside the field: the radial and
tangential parts are perpendicular unit directions scaled by `0.7*baseForce`
and `0.5*baseForce`, the lift is vertical, so the squared norm collapses to
`(falloff/m)^2 * (0.74*strength^2 + 40000)`. -/
lemma force_normSq_inside (t : Tornado) (p : Vec3) (m : ℝ) (hm : m ≠ 0)
    (h1 : 0.1 < t.planarDistance p) (h2 : t.planarDistance p < t.maxRadius) :
    ((t.calculateForceOnObject p m).1).normSq
      = (t.falloffAt p / m) ^ 2 * (0.74 * t.tornadoForceStrength ^ 2 + 40000) := by
  rw [calculateForceOnObject_inside t p m h1 h2]
  simp only [Vec3.normSq]
  have hD0 : (0:ℝ) < t.planarDistance p := lt_trans (by norm_num) h1
  have hDne : t.planarDistance p ≠ 0 := ne_of_gt hD0
  have hexp : Vec3.normSq (Vec3.sub ⟨t.position.x, p.y, t.position.z⟩ p)
      = (t.position.x - p.x) ^ 2 + (p.y - p.y) ^ 2 + (t.position.z - p.z) ^ 2 := rfl
  have hkey : (t.planarDistance p) ^ 2
      = (t.position.x - p.x) ^ 2 + (p.y - p.y) ^ 2 + (t.position.z - p.z) ^ 2 := by
    rw [Tornado.planarDistance, Vec3.length, ← hexp,
      Real.sq_sqrt (Vec3.normSq_nonneg _)]
  have hkey2 : (t.position.x - p.x) ^ 2 + (t.position.z - p.z) ^ 2
      = (t.planarDistance p) ^ 2 := by
    simp only [sub_self] at hkey
    rw [hkey]
    ring
  field_simp
  linear_combination (0.74 * t.tornadoForceStrength ^ 2 * (t.falloffAt p) ^ 2 * m ^ 6
    * (t.planarDistance p) ^ 2) * hkey2

/-- C2: strictly inside the field, for positive masses `m1 < m2` the force on
the lighter body is strictly larger in Euclidean norm (strict inverse
proportionality to mass). -/
theorem forceNorm_strict_anti_mass (t : Tornado) (p : Vec3) (m1 m2 : ℝ)
    (h1 : 0.1 < t.planarDistance p) (h2 : t.planarDistance p < t.maxRadius)
    (hm1 : 0 < m1) (h12 : m1 < m2) :
    ((t.calculateForceOnObject p m2).1).length < ((t.calculateForceOnObject p m1).1).length := by
  have hm2 : 0 < m2 := lt_trans hm1 h12
  have e1 := force_normSq_inside t p m1 (ne_of_gt hm1) h1 h2
  have e2 := force_normSq_inside t p m2 (ne_of_gt hm2) h1 h2
  simp only [Vec3.length]
  rw [e1, e2]
  apply Real.sqrt_lt_sqrt
  · positivity
  · have hf : 0 < t.falloffAt p := by
      rw [Tornado.falloffAt]
      have hR : 0 < t.maxRadius := lt_trans (lt_trans (by norm_num) h1) h2
      have hlt : t.planarDistance p / t.maxRadius < 1 := (div_lt_one hR).mpr h2
      have : (0:ℝ) < 1 - t.planarDistance p / t.maxRadius := by linarith
      positivity
    have hC : (0:ℝ) < 0.74 * t.tornadoForceStrength ^ 2 + 40000 := by positivity
    have hdiv : t.falloffAt p / m2 < t.falloffAt p / m1 :=
      div_lt_div_of_pos_left hf hm1 h12
    have hpos2 : 0 < t.falloffAt p / m2 := div_pos hf hm2
    have hsq : (t.falloffAt p / m2) ^ 2 < (t.falloffAt p / m1) ^ 2 :=
      pow_lt_pow_left₀ hdiv (le_of_lt hpos2) two_ne_zero
    exact mul_lt_mul_of_pos_right hsq hC

lemma planarDistance_default_near : tornadoDefault.planarDistance ⟨15, 0, 80⟩ = 15 := by
  simp only [Tornado.planarDistance, tornadoDefault, Vec3.sub, Vec3.length, Vec3.normSq]
  rw [show ((0:ℝ) - 15) ^ 2 + (0 - 0) ^ 2 + (80 - 80) ^ 2 = 15 ^ 2 by norm_num]
  exact Real.sqrt_sq (by norm_num)

/-- Witness for C2: at a point 15 units from the default field center, mass 1
feels a strictly stronger force than mass 2. -/
theorem forceNorm_strict_anti_mass_witness :
    (0.1 < tornadoDefault.planarDistance ⟨15, 0, 80⟩) ∧
    (tornadoDefault.planarDistance ⟨15, 0, 80⟩ < tornadoDefault.maxRadius) ∧
    ((0:ℝ) < 1) ∧ ((1:ℝ) < 2) ∧
    ((tornadoDefault.calculateForceOnObject ⟨15, 0, 80⟩ 2).1).length
      < ((tornadoDefault.calculateForceOnObject ⟨15, 0, 80⟩ 1).1).length := by
  have ha : 0.1 < tornadoDefault.planarDistance ⟨15, 0, 80⟩ := by
    rw [planarDistance_default_near]; norm_num
  have hb : tornadoDefault.planarDistance ⟨15, 0, 80⟩ < tornadoDefault.maxRadius := by
    rw [planarDistance_default_near]; norm_num [tornadoDefault]
  exact ⟨ha, hb, by norm_num, by norm_num,
    forceNorm_strict_anti_mass tornadoDefault ⟨15, 0, 80⟩ 1 2 ha hb (by norm_num) (by norm_num)⟩

/-- Tornado state of the C3 scenario: field center at the origin,
`maxRadius = 30`, `forceStrength = 150000`, `time = 0` (the instance-field
values of the variants in `src/unnamed/part_001`). -/
noncomputable def tornadoC3 : Tornado :=
  { particleCount := 10000, maxHeight := 50, maxRadius := 30, coreRadius := 5.0,
    position := ⟨0, 0, 0⟩, velocity := ⟨0, 0, 0⟩, tornadoForceStrength := 150000,
    time := 0, formationTime := 0, formationDuration := 0.01, particles := [] }

lemma planarDistance_C3 : tornadoC3.planarDistance ⟨15, 0, 0⟩ = 15 := by
  simp only [Tornado.planarDistance, tornadoC3, Vec3.sub, Vec3.length, Vec3.normSq]
  rw [show ((0:ℝ) - 15) ^ 2 + (0 - 0) ^ 2 + (0 - 0) ^ 2 = 15 ^ 2 by norm_num]
  exact Real.sqrt_sq (by norm_num)

lemma falloff_C3 : tornadoC3.falloffAt ⟨15, 0, 0⟩ = 0.25 := by
  rw [Tornado.falloffAt, planarDistance_C3]
  norm_num [tornadoC3]

lemma calculateForceOnObject_C3 :
    tornadoC3.calculateForceOnObject ⟨15, 0, 0⟩ 5 =
      (⟨-5250, 10, -3750⟩, ⟨0, 9000, 2250⟩) := by
  have h1 : 0.1 < tornadoC3.planarDistance ⟨15, 0, 0⟩ := by
    rw [planarDistance_C3]; norm_num
  have h2 : tornadoC3.planarDistance ⟨15, 0, 0⟩ < tornadoC3.maxRadius := by
    rw [planarDistance_C3]; norm_num [tornadoC3]
  rw [calculateForceOnObject_inside tornadoC3 ⟨15, 0, 0⟩ 5 h1 h2, planarDistance_C3, falloff_C3]
  have ht : tornadoC3.time = 0 := rfl
  rw [ht]
  norm_num [tornadoC3, Prod.ext_iff, Vec3.mk.injEq]

/-- Counterexample for C3: in the stated scenario the torque's z component at
`time = 0` is `cos(0) * 0.3 * baseForce = 2250`, not zero as the claim
asserts. -/
theorem scenario_torque_z_counterexample :
    (tornadoC3.calculateForceOnObject ⟨15, 0, 0⟩ 5).2.z ≠ 0 := by
  rw [calculateForceOnObject_C3]
  norm_num

/-- C3 as amended: the scenario yields falloff `0.25`, a strictly negative
force x component, strictly positive lift and strictly positive y torque, a
zero x torque, and a strictly positive (not zero) z torque equal to `2250`,
the `cos(time*2)` wobble term at `time = 0`. -/
theorem scenario_amended :
    tornadoC3.falloffAt ⟨15, 0, 0⟩ = 0.25 ∧
    (tornadoC3.calculateForceOnObject ⟨15, 0, 0⟩ 5).1.x < 0 ∧
    0 < (tornadoC3.calculateForceOnObject ⟨15, 0, 0⟩ 5).1.y ∧
    0 < (tornadoC3.calculateForceOnObject ⟨15, 0, 0⟩ 5).2.y ∧
    (tornadoC3.calculateForceOnObject ⟨15, 0, 0⟩ 5).2.x = 0 ∧
    (tornadoC3.calculateForceOnObject ⟨15, 0, 0⟩ 5).2.z = 2250 := by
  rw [falloff_C3, calculateForceOnObject_C3]
  norm_num

/-- The height written by one particle update: the integrated height, or `0`
if it overflowed the global max height or the formation ceiling. -/
lemma updateParticle_height_eq (mh mr time ceil chaos delta : ℝ) (rnd : ℝ × ℝ × ℝ)
    (p : Particle) :
    (updateParticle mh mr time ceil chaos delta rnd p).height
      = if p.height + p.upwardSpeed * delta > mh ∨ p.height + p.upwardSpeed * delta > ceil
        then 0 else p.height + p.upwardSpeed * delta := by
  simp only [updateParticle]
  split <;> rfl

lemma updateParticle_upwardSpeed_eq (mh mr time ceil chaos delta : ℝ) (rnd : ℝ × ℝ × ℝ)
    (p : Particle) :
    (updateParticle mh mr time ceil chaos delta rnd p).upwardSpeed = p.upwardSpeed := by
  simp only [updateParticle]
  split <;> rfl

/-- On overflow the particle is recycled: height reset to `0`, and angle,
phase and radial phase re-rolled from the fresh random draws.  The old angle
is discarded entirely: the post-update angle is the fresh draw
`rnd.1 * 2 * pi` advanced by the step's normal angular integration (which,
after the reset, reads the recycled height `0` and the re-rolled radial
phase). -/
lemma updateParticle_recycled (mh mr time ceil chaos delta : ℝ) (rnd : ℝ × ℝ × ℝ)
    (p : Particle)
    (hc : p.height + p.upwardSpeed * delta > mh ∨ p.height + p.upwardSpeed * delta > ceil) :
    (updateParticle mh mr time ceil chaos delta rnd p).height = 0 ∧
    (updateParticle mh mr time ceil chaos delta rnd p).angle
      = rnd.1 * 2 * Real.pi
        + Tornado.calculateAngularVelocity
            (calculateMaxRadiusAux mh mr 0
              * (p.targetRadiusFactor
                  + Real.sin (time * 2 + rnd.2.2 * 2 * Real.pi) * p.radialOscillation * 0.1))
            (calculateMaxRadiusAux mh mr 0) p.spinSpeed * delta ∧
    (updateParticle mh mr time ceil chaos delta rnd p).phase = rnd.2.1 * 2 * Real.pi ∧
    (updateParticle mh mr time ceil chaos delta rnd p).radialPhase = rnd.2.2 * 2 * Real.pi := by
  simp only [updateParticle]
  rw [if_pos hc]
  exact ⟨rfl, rfl, rfl, rfl⟩

lemma mem_mapWithIndex {f : ℕ → α → β} :
    ∀ (l : List α) (i : ℕ) (b : β), b ∈ mapWithIndex f i l → ∃ j a, a ∈ l ∧ b = f j a := by
  intro l
  induction l with
  | nil => intro i b hb; cases hb
  | cons a as ih =>
      intro i b hb
      cases hb with
      | head => exact ⟨i, a, List.mem_cons_self a as, rfl⟩
      | tail _ hb =>
          obtain ⟨j, a2, hmem, rfl⟩ := ih (i + 1) _ hb
          exact ⟨j, a2, List.mem_cons_of_mem a hmem, rfl⟩

/-- One `Tornado.update` step preserves `maxHeight`, keeps heights and upward
speeds non-negative, and caps every height by `maxHeight`. -/
lemma update_step_inv (rnds : ℕ → ℝ × ℝ × ℝ) (delta : ℝ) (t : Tornado)
    (hmh : 0 ≤ t.maxHeight) (hdelta : 0 ≤ delta)
    (hp : ∀ p ∈ t.particles, 0 ≤ p.height ∧ 0 ≤ p.upwardSpeed) :
    (Tornado.update rnds delta t).maxHeight = t.maxHeight ∧
    ∀ q ∈ (Tornado.update rnds delta t).particles,
      0 ≤ q.height ∧ 0 ≤ q.upwardSpeed ∧ q.height ≤ t.maxHeight := by
  refine ⟨rfl, ?_⟩
  intro q hq
  simp only [Tornado.update] at hq
  obtain ⟨j, p, hmem, rfl⟩ := mem_mapWithIndex _ _ _ hq
  obtain ⟨hh, hu⟩ := hp p hmem
  rw [updateParticle_height_eq, updateParticle_upwardSpeed_eq]
  refine ⟨?_, hu, ?_⟩
  · split
    · exact le_refl 0
    · exact add_nonneg hh (mul_nonneg hu hdelta)
  · split
    · exact hmh
    · rename_i hcond
      push_neg at hcond
      exact hcond.1

/-- Invariant preservation along any sequence of update steps with
non-negative deltas. -/
lemma foldl_update_inv :
    ∀ (steps : List (ℝ × (ℕ → ℝ × ℝ × ℝ))) (t : Tornado),
      0 ≤ t.maxHeight →
      (∀ p ∈ t.particles, 0 ≤ p.height ∧ 0 ≤ p.upwardSpeed) →
      (∀ s ∈ steps, 0 ≤ s.1) →
      (steps.foldl (fun s st => Tornado.update st.2 st.1 s) t).maxHeight = t.maxHeight ∧
      ∀ q ∈ (steps.foldl (fun s st => Tornado.update st.2 st.1 s) t).particles,
        0 ≤ q.height ∧ 0 ≤ q.upwardSpeed ∧ (steps ≠ [] → q.height ≤ t.maxHeight) := by
  intro steps
  induction steps with
  | nil =>
      intro t hmh hp hs
      exact ⟨rfl, fun q hq => ⟨(hp q hq).1, (hp q hq).2, fun h => absurd rfl h⟩⟩
  | cons s rest ih =>
      intro t hmh hp hs
      have hdelta : 0 ≤ s.1 := hs s (List.mem_cons_self s rest)
      obtain ⟨hmx1, hstrong⟩ := update_step_inv s.2 s.1 t hmh hdelta hp
      have hmh1 : 0 ≤ (Tornado.update s.2 s.1 t).maxHeight := by rw [hmx1]; exact hmh
      have hp1 : ∀ p ∈ (Tornado.update s.2 s.1 t).particles,
          0 ≤ p.height ∧ 0 ≤ p.upwardSpeed :=
        fun p hp2 => ⟨(hstrong p hp2).1, (hstrong p hp2).2.1⟩
      have hs1 : ∀ x ∈ rest, 0 ≤ x.1 := fun x hx => hs x (List.mem_cons_of_mem s hx)
      obtain ⟨hmx2, hq2⟩ := ih (Tornado.update s.2 s.1 t) hmh1 hp1 hs1
      have hfold : (s :: rest).foldl (fun s st => Tornado.update st.2 st.1 s) t
          = rest.foldl (fun s st => Tornado.update st.2 st.1 s) (Tornado.update s.2 s.1 t) := rfl
      rw [hfold, hmx2, hmx1]
      refine ⟨rfl, ?_⟩
      intro q hq
      refine ⟨(hq2 q hq).1, (hq2 q hq).2.1, fun _ => ?_⟩
      rcases eq_or_ne rest [] with hrest | hrest
      · subst hrest
        simp only [List.foldl_nil] at hq
        exact (hstrong q hq).2.2
      · have hle := (hq2 q hq).2.2 hrest
        rw [hmx1] at hle
        exact hle

/-- C4: for every particle and every finite sequence of update steps with
non-negative deltas (dt = 0 and arbitrarily large dt included), the height
lies in `[0, maxHeight]` after each update call; and on overflow past
`maxHeight` or past the formation ceiling the particle is recycled with
height reset to `0` and angle, phase and radial phase re-rolled from the
fresh random draws (the re-rolled angle is then advanced by the same step's
normal angular integration, which reads the recycled height `0` and the
re-rolled radial phase). -/
theorem particle_height_invariant (t0 : Tornado) (steps : List (ℝ × (ℕ → ℝ × ℝ × ℝ)))
    (hmh : 0 ≤ t0.maxHeight)
    (hp : ∀ p ∈ t0.particles, 0 ≤ p.height ∧ 0 ≤ p.upwardSpeed)
    (hsteps : ∀ s ∈ steps, 0 ≤ s.1) (hne : steps ≠ []) :
    (∀ q ∈ (steps.foldl (fun s st => Tornado.update st.2 st.1 s) t0).particles,
        0 ≤ q.height ∧ q.height ≤ t0.maxHeight) ∧
    (∀ (mh mr time ceil chaos delta : ℝ) (rnd : ℝ × ℝ × ℝ) (p : Particle),
        p.height + p.upwardSpeed * delta > mh ∨ p.height + p.upwardSpeed * delta > ceil →
        (updateParticle mh mr time ceil chaos delta rnd p).height = 0 ∧
        (updateParticle mh mr time ceil chaos delta rnd p).angle
          = rnd.1 * 2 * Real.pi
            + Tornado.calculateAngularVelocity
                (calculateMaxRadiusAux mh mr 0
                  * (p.targetRadiusFactor
                      + Real.sin (time * 2 + rnd.2.2 * 2 * Real.pi) * p.radialOscillation * 0.1))
                (calculateMaxRadiusAux mh mr 0) p.spinSpeed * delta ∧
        (updateParticle mh mr time ceil chaos delta rnd p).phase = rnd.2.1 * 2 * Real.pi ∧
        (updateParticle mh mr time ceil chaos delta rnd p).radialPhase
          = rnd.2.2 * 2 * Real.pi) := by
  refine ⟨?_, fun mh mr time ceil chaos delta rnd p hc =>
    updateParticle_recycled mh mr time ceil chaos delta rnd p hc⟩
  intro q hq
  obtain ⟨_, hinv⟩ := foldl_update_inv steps t0 hmh hp hsteps
  exact ⟨(hinv q hq).1, (hinv q hq).2.2 hne⟩

/-- One concrete particle as drawn by `createGeometryAndMesh` (height 0,
upward speed 3). -/
noncomputable def particleC4 : Particle :=
  { angle := 0, height := 0, targetRadiusFactor := 1, spinSpeed := 2, upwardSpeed := 3,
    phase := 0, turbulenceOffset := 0, radialOscillation := 0, radialPhase := 0,
    chaosInitial := 0, chaosFactor := 2, chaosXFactor := 0, chaosZFactor := 0,
    chaosYFactor := 0 }

/-- Concrete tornado state with a single particle, for the C4 witness. -/
noncomputable def tornadoC4 : Tornado := { tornadoDefault with particles := [particleC4] }

/-- Concrete step sequence for the C4 witness: one update with dt equal 1. -/
noncomputable def stepsC4 : List (ℝ × (ℕ → ℝ × ℝ × ℝ)) := [(1, fun _ => (0, 0, 0))]

/-- Witness for C4: the invariant theorem applied to a concrete one-particle
pool and a concrete step sequence. -/
theorem particle_height_invariant_witness :
    (0 ≤ tornadoC4.maxHeight) ∧
    (∀ p ∈ tornadoC4.particles, 0 ≤ p.height ∧ 0 ≤ p.upwardSpeed) ∧
    (∀ s ∈ stepsC4, 0 ≤ s.1) ∧ stepsC4 ≠ [] ∧
    ((∀ q ∈ (stepsC4.foldl (fun s st => Tornado.update st.2 st.1 s) tornadoC4).particles,
        0 ≤ q.height ∧ q.height ≤ tornadoC4.maxHeight) ∧
     (∀ (mh mr time ceil chaos delta : ℝ) (rnd : ℝ × ℝ × ℝ) (p : Particle),
        p.height + p.upwardSpeed * delta > mh ∨ p.height + p.upwardSpeed * delta > ceil →
        (updateParticle mh mr time ceil chaos delta rnd p).height = 0 ∧
        (updateParticle mh mr time ceil chaos delta rnd p).angle
          = rnd.1 * 2 * Real.pi
            + Tornado.calculateAngularVelocity
                (calculateMaxRadiusAux mh mr 0
                  * (p.targetRadiusFactor
                      + Real.sin (time * 2 + rnd.2.2 * 2 * Real.pi) * p.radialOscillation * 0.1))
                (calculateMaxRadiusAux mh mr 0) p.spinSpeed * delta ∧
        (updateParticle mh mr time ceil chaos delta rnd p).phase = rnd.2.1 * 2 * Real.pi ∧
        (updateParticle mh mr time ceil chaos delta rnd p).radialPhase
          = rnd.2.2 * 2 * Real.pi)) := by
  have h1 : 0 ≤ tornadoC4.maxHeight := by
    norm_num [tornadoC4, tornadoDefault]
  have h2 : ∀ p ∈ tornadoC4.particles, 0 ≤ p.height ∧ 0 ≤ p.upwardSpeed := by
    intro p hp
    simp only [tornadoC4, List.mem_singleton] at hp
    subst hp
    norm_num [particleC4]
  have h3 : ∀ s ∈ stepsC4, 0 ≤ s.1 := by
    intro s hs
    simp only [stepsC4, List.mem_singleton] at hs
    subst hs
    norm_num
  have h4 : stepsC4 ≠ [] := by simp [stepsC4]
  exact ⟨h1, h2, h3, h4, particle_height_invariant tornadoC4 stepsC4 h1 h2 h3 h4⟩

/-- Embedding of `THREE.Quaternion` (components only). -/
structure Quat where
  x : ℝ
  y : ℝ
  z : ℝ
  w : ℝ

/-- Embedding of `THREE.Vector3.applyQuaternion(q)`: rotate a vector by a quaternion
(`v + 2*w*(q x v) + 2*(q x (q x v))`, written as in the three.js source). -/
def quatApply (q : Quat) (v : Vec3) : Vec3 :=
  let tx := 2 * (q.y * v.z - q.z * v.y)
  let ty := 2 * (q.z * v.x - q.x * v.z)
  let tz := 2 * (q.x * v.y - q.y * v.x)
  ⟨v.x + q.w * tx + q.y * tz - q.z * ty,
   v.y + q.w * ty + q.z * tx - q.x * tz,
   v.z + q.w * tz + q.x * ty - q.y * tx⟩

/-- JavaScript runtime error raised by a registry operation (property access
on `undefined`). -/
inductive JsErr
  | typeError
deriving DecidableEq

/-- One entry of the `this.buildings` building-type registry
(`BuildingSlots.addBuilding`). -/
structure BuildingCfg where
  intact : ℕ
  cracked : ℕ
  debrisMass : ℝ

/-- One element pushed onto `building.crackedBodies`: the `{mesh, body}` pair
created per debris piece in `damageBuilding`. -/
structure Fragment where
  meshId : ℕ
  bodyId : ℕ
deriving DecidableEq

/-- A value passed to the physics world's `addBody`/`removeBody`.  The world
holds the objects it was given; `removeBody` removes by object identity
(`indexOf`).  `damageBuilding` adds plain bodies, while `demolishBuilding`
passes the `{mesh, body}` wrapper objects of `crackedBodies` to `removeBody`,
so both kinds of value can flow into the world API. -/
inductive PhysEntity
  | body (id : ℕ)
  | fragWrapper (meshId bodyId : ℕ)
deriving DecidableEq

/-- One slot of `this.slots` (`BuildingSlots.addSlot`). -/
structure Slot where
  position : Vec3
  size : ℝ
  occupied : Bool
  buildingType : Option ℕ
  buildingId : Option ℕ

/-- One entry of `this.buildingVisuals` (created in `placeBuilding`'s
`onLoad`). -/
structure BuildingRec where
  visualId : ℕ
  body : Option ℕ
  type : ℕ
  slotId : ℕ
  intact : ℕ
  cracked : ℕ
  damaged : Bool
  crackedBodies : List Fragment
  originalPosition : Vec3

/-- Mutable fields of a scene-graph object (position, orientation, scale,
visibility). -/
structure ObjState where
  pos : Vec3
  quat : Quat
  scale : Vec3
  visible : Bool

/-- Properties of a created physics body (`new CANNON.Body`). -/
structure BodyRec where
  mass : ℝ
  halfExtents : Vec3
  pos : Vec3
  quat : Quat

/-- The record a successful `ModelLoader.load` resolves with: keys `visual`,
`physics` and `path` (there is no `body` key). -/
structure LoadedModel where
  visualId : ℕ
  physicsId : ℕ
  path : ℕ

/-- External scene-graph data of one mesh piece inside a loaded model:
the decomposed world transform (`matrixWorld.decompose`) and the local
geometry bounding box (`geometry.computeBoundingBox`), as handed to the core
by three.js. -/
structure MeshData where
  meshId : ℕ
  worldPos : Vec3
  worldQuat : Quat
  worldScale : Vec3
  bboxMin : Vec3
  bboxMax : Vec3

/-- External result data of a successful GLTF load: the root object id, the
root bounding-box size (`Box3.setFromObject`), and the mesh pieces found by
`traverse`. -/
structure GltfData where
  rootId : ℕ
  rootBBoxSize : Vec3
  meshes : List MeshData

/-- State of the `BuildingSlots` class (`src/scripts/controles_mov.js`)
together with the external collaborators it mutates: the scene membership
list, the physics world's body collection, the approximately-keyed object
stores, and the `ModelLoader`'s `loadedModels` list.  `errlog` counts
`console.error` diagnostics; `nextId` is the allocator for fresh object
identities. -/
structure BuildingSlots where
  slots : ℕ → Option Slot
  buildings : List (ℕ × BuildingCfg)
  buildingVisuals : List (ℕ × BuildingRec)
  slotVisuals : ℕ → ℕ
  visuals : ℕ → ObjState
  bodyProps : ℕ → Option BodyRec
  scene : List ℕ
  world : List PhysEntity
  loadedModels : List LoadedModel
  nextId : ℕ
  errlog : ℕ

/-- Pointwise update of a function-backed store. -/
def updFun (f : ℕ → α) (k : ℕ) (v : α) : ℕ → α := fun j => if j = k then v else f j

/-- Replace the value stored under a key of an association-list-backed JS
object. -/
def assocUpdate (l : List (ℕ × α)) (k : ℕ) (v : α) : List (ℕ × α) :=
  l.map (fun kv => if kv.1 = k then (k, v) else kv)

/-- JS property assignment `obj[k] = v`: replace if present, else append. -/
def assocInsert (l : List (ℕ × α)) (k : ℕ) (v : α) : List (ℕ × α) :=
  if (List.lookup k l).isSome then assocUpdate l k v else l ++ [(k, v)]

/-- JS `delete obj[k]`. -/
def assocRemove (l : List (ℕ × α)) (k : ℕ) : List (ℕ × α) :=
  l.filter (fun kv => kv.1 != k)

/-- Embedding of `ModelLoader.load(path, opts)`
(`src/scripts/model_loader.js`, lines 32-99).  The external GLTF load either
rejects (`res = .error`) leaving all state untouched, or succeeds: the model
is scaled and positioned, added to the scene, a box body is synthesised from
its bounding box and added to the world, the model is recorded in
`loadedModels`, and the promise resolves with `{visual, physics, path}`
(returned here together with the gltf tree data for the caller's
traversals). -/
def ModelLoader.load (path : ℕ) (res : Except Unit GltfData) (mass : ℝ) (position : Vec3)
    (scale : ℝ) (s : BuildingSlots) : Except Unit (LoadedModel × GltfData) × BuildingSlots :=
  match res with
  | .error e => (.error e, s)
  | .ok g =>
      let bodyId := s.nextId
      let md : LoadedModel := { visualId := g.rootId, physicsId := bodyId, path := path }
      (.ok (md, g),
       { s with
          visuals := updFun s.visuals g.rootId
            { s.visuals g.rootId with pos := position, scale := ⟨scale, scale, scale⟩ },
          scene := s.scene ++ [g.rootId],
          bodyProps := updFun s.bodyProps bodyId
            (some { mass := mass, halfExtents := Vec3.scale 0.5 g.rootBBoxSize,
                    pos := position, quat := ⟨0, 0, 0, 1⟩ }),
          world := s.world ++ [PhysEntity.body bodyId],
          loadedModels := s.loadedModels ++ [md],
          nextId := s.nextId + 1 })

/-- Per-piece body of the `debrisParts.forEach` loop in
`damageBuilding.onLoad` (lines 593-655 of `src/scripts/controles_mov.js`):
pivot correction, world re-positioning, ground nudge, shrunken collision box,
body synthesis and registration, and the `crackedBodies.push({mesh, body})`. -/
def processDebrisPiece (debrisMass : ℝ) (acc : BuildingSlots × List Fragment) (m : MeshData) :
    BuildingSlots × List Fragment :=
  let st := acc.1
  let size := Vec3.sub m.bboxMax m.bboxMin
  let center := Vec3.scale 0.5 (Vec3.add m.bboxMin m.bboxMax)
  let centerOffset := quatApply m.worldQuat center
  let realCenterPos := Vec3.add m.worldPos centerOffset
  let childPos : Vec3 := ⟨realCenterPos.x, realCenterPos.y + 0.2, realCenterPos.z⟩
  let physicsSize := Vec3.scale 0.85 size
  let bodyId := st.nextId
  let st1 := { st with
    scene := st.scene ++ [m.meshId],
    visuals := updFun st.visuals m.meshId
      { pos := childPos, quat := m.worldQuat, scale := m.worldScale, visible := true },
    bodyProps := updFun st.bodyProps bodyId
      (some { mass := debrisMass, halfExtents := Vec3.scale 0.5 physicsSize,
              pos := childPos, quat := m.worldQuat }),
    world := st.world ++ [PhysEntity.body bodyId],
    nextId := st.nextId + 1 }
  (st1, acc.2 ++ [{ meshId := m.meshId, bodyId := bodyId }])

/-- Embedding of `BuildingSlots.damageBuilding(buildingId)` (`src/scripts/controles_mov.js`,
lines 545-660).  Unknown id or already-damaged building: early return.
Otherwise the damaged flag is set, the intact visual and (if tracked) body are
removed, and the broken model is loaded: on rejection the error is only
logged (`console.error` in the final `.catch`); on success the pieces are
re-origined, re-parented, and given debris bodies.  `loadRes` is the external
loader's outcome for the broken-model path. -/
noncomputable def BuildingSlots.damageBuilding (loadRes : Except Unit GltfData) (buildingId : ℕ)
    (s : BuildingSlots) : BuildingSlots :=
  match List.lookup buildingId s.buildingVisuals with
  | none => s
  | some b =>
    if b.damaged then s
    else
      let b1 := { b with damaged := true }
      let s1 := { s with buildingVisuals := assocUpdate s.buildingVisuals buildingId b1 }
      let position := (s.visuals b.visualId).pos
      let quaternion := (s.visuals b.visualId).quat
      let debrisMass : ℝ :=
        match List.lookup b.type s.buildings with
        | some cfg => if cfg.debrisMass = 0 then 10 else cfg.debrisMass
        | none => 10
      let s2 := { s1 with scene := s1.scene.erase b.visualId }
      let s3 :=
        match b.body with
        | some bid => { s2 with world := s2.world.erase (PhysEntity.body bid) }
        | none => s2
      match ModelLoader.load b.cracked loadRes 0 position 1 s3 with
      | (.error _, s4) => { s4 with errlog := s4.errlog + 1 }
      | (.ok (md, g), s4) =>
          let b2 := { b1 with visualId := md.visualId }
          let crackedVis := { s4.visuals md.visualId with pos := position, quat := quaternion }
          let s5 := { s4 with visuals := updFun s4.visuals md.visualId crackedVis }
          -- `crackedData.body` is `undefined` (the loader resolves the key
          -- `physics`), so `removeBody(crackedData.body)` is not executed.
          let s6frags := g.meshes.foldl (processDebrisPiece debrisMass) (s5, [])
          let b3 := { b2 with crackedBodies := s6frags.2 }
          { s6frags.1 with
            buildingVisuals := assocUpdate s6frags.1.buildingVisuals buildingId b3 }

/-- Embedding of `BuildingSlots.demolishBuilding(slotId)` (`src/scripts/controles_mov.js`,
lines 504-542).  Reading `slot.occupied` of an unregistered slot raises a
`TypeError`.  For an occupied slot: the registered visual is removed from the
scene, `removeBody` is called for the tracked intact body (if any) and for
every element of `crackedBodies` (the `{mesh, body}` wrapper objects
themselves), the registry entry is deleted, and the slot is cleared and its
marker made visible again. -/
def BuildingSlots.demolishBuilding (slotId : ℕ) (s : BuildingSlots) :
    Except JsErr BuildingSlots :=
  match s.slots slotId with
  | none => .error .typeError
  | some slot =>
    match slot.buildingId with
    | none => .ok s
    | some buildingId =>
      if slot.occupied = false then .ok s
      else
        let s1 :=
          match List.lookup buildingId s.buildingVisuals with
          | none => s
          | some b =>
            let sceneA := s.scene.erase b.visualId
            let worldA :=
              match b.body with
              | some bid => s.world.erase (PhysEntity.body bid)
              | none => s.world
            let worldB := b.crackedBodies.foldl
              (fun (w : List PhysEntity) (f : Fragment) =>
                w.erase (PhysEntity.fragWrapper f.meshId f.bodyId))
              worldA
            { s with scene := sceneA, world := worldB,
                     buildingVisuals := assocRemove s.buildingVisuals buildingId }
        let slot2 := { slot with occupied := false, buildingType := none, buildingId := none }
        let shownVis := { s1.visuals (s1.slotVisuals slotId) with visible := true }
        .ok { s1 with slots := updFun s1.slots slotId (some slot2),
                      visuals := updFun s1.visuals (s1.slotVisuals slotId) shownVis }

/-- Embedding of `BuildingSlots.placeBuilding(slotId, buildingType)`
(`src/scripts/controles_mov.js`, lines 449-499).  Reading `slot.occupied` of
an unregistered slot raises a `TypeError`.  An occupied slot is demolished
first.  An unregistered building type is a no-op.  Otherwise the intact model
is loaded: on rejection the `.catch` swallows the error silently; on success
the building record is created (note `body: modelData.body` where the loader
resolved `{visual, physics, path}`, so the stored body reference is
`undefined`), the slot is marked occupied, and the slot marker hidden.
`freshBuildingId` stands for the generated id string
`slotId_buildingType_Date.now()`. -/
def BuildingSlots.placeBuilding (slotId buildingType freshBuildingId : ℕ)
    (loadRes : Except Unit GltfData) (s0 : BuildingSlots) : Except JsErr BuildingSlots :=
  match s0.slots slotId with
  | none => .error .typeError
  | some slot =>
    match (if slot.occupied then BuildingSlots.demolishBuilding slotId s0 else .ok s0) with
    | .error e => .error e
    | .ok s1 =>
      match List.lookup buildingType s1.buildings with
      | none => .ok s1
      | some cfg =>
        match ModelLoader.load cfg.intact loadRes 0 slot.position 1 s1 with
        | (.error _, s2) => .ok s2
        | (.ok (md, _), s2) =>
            let newRec : BuildingRec :=
              { visualId := md.visualId,
                body := none,
                type := buildingType, slotId := slotId,
                intact := cfg.intact, cracked := cfg.cracked,
                damaged := false, crackedBodies := [],
                originalPosition := slot.position }
            let slot2 := { slot with occupied := true, buildingType := some buildingType,
                                     buildingId := some freshBuildingId }
            let hiddenVis := { s2.visuals (s2.slotVisuals slotId) with visible := false }
            .ok { s2 with
                  buildingVisuals := assocInsert s2.buildingVisuals freshBuildingId newRec,
                  slots := updFun s2.slots slotId (some slot2),
                  visuals := updFun s2.visuals (s2.slotVisuals slotId) hiddenVis }

/-- Per-building body of the damage-scan loop in
`BuildingSlots.applyTornadoForces` (`src/scripts/controles_mov.js`, lines
193-202): if the building's damaged flag is unset and the full 3D distance
from its visual position to the tornado position is below the damage
threshold, invoke `damageBuilding`.  `loadRes` gives the external loader
outcome per building id. -/
noncomputable def BuildingSlots.damageScanStep (tornadoPos : Vec3) (damageThreshold : ℝ)
    (loadRes : ℕ → Except Unit GltfData) (st : BuildingSlots) (realBuildingId : ℕ) :
    BuildingSlots :=
  match List.lookup realBuildingId st.buildingVisuals with
  | none => st
  | some building =>
    if building.damaged = false ∧
        Vec3.distanceTo (st.visuals building.visualId).pos tornadoPos < damageThreshold then
      BuildingSlots.damageBuilding (loadRes realBuildingId) realBuildingId st
    else st

/-- The damage-scan half of `BuildingSlots.applyTornadoForces`
(`src/scripts/controles_mov.js`, lines 191-202): `Object.entries` snapshots
the registry's keys, and the loop runs `damageScanStep` for each registered
building in order, threading the mutated state.  (The debris branch of the
same loop, lines 205-237, only mutates physics-body force/torque accumulators
and is modelled by `BuildingSlots.applyTornadoForcesOnDebris` below.) -/
noncomputable def BuildingSlots.damageScan (tornadoPos : Vec3) (damageThreshold : ℝ)
    (loadRes : ℕ → Except Unit GltfData) (s : BuildingSlots) : BuildingSlots :=
  (s.buildingVisuals.map Prod.fst).foldl
    (BuildingSlots.damageScanStep tornadoPos damageThreshold loadRes) s

/-- Mutable per-body physics state read and written by the force bridges. -/
structure BodyState where
  mass : ℝ
  position : Vec3
  torque : Vec3

/-- One `applyForce(force, point)` call, with the point interpreted per the
external physics contract (`applyForce(vector, worldPoint)`). -/
structure ForceApp where
  force : Vec3
  point : Vec3

/-- Per-body body of the loop in `ModelLoader.applyTornadoForces(tornado)`
(`src/scripts/model_loader.js`, lines 196-225): for a dynamic body, query the
field; if the force is non-zero, apply the vertical lift at the body's
position, the horizontal component at the body's position plus `(0, 0.8, 0)`,
and add the returned torque to the torque accumulator.  Returns the list of
`applyForce` calls made and the new torque accumulator. -/
noncomputable def ModelLoader.applyTornadoForcesOnBody (t : Tornado) (b : BodyState) :
    List ForceApp × Vec3 :=
  if b.mass > 0 then
    let r := t.calculateForceOnObject b.position b.mass
    if r.1.x ≠ 0 ∨ r.1.y ≠ 0 ∨ r.1.z ≠ 0 then
      let lifts : List ForceApp := if r.1.y ≠ 0 then [⟨⟨0, r.1.y, 0⟩, b.position⟩] else []
      let horizs : List ForceApp :=
        if r.1.x ≠ 0 ∨ r.1.z ≠ 0 then
          [⟨⟨r.1.x, 0, r.1.z⟩, Vec3.add b.position ⟨0, 0.8, 0⟩⟩]
        else []
      (lifts ++ horizs,
       ⟨b.torque.x + r.2.x, b.torque.y + r.2.y, b.torque.z + r.2.z⟩)
    else ([], b.torque)
  else ([], b.torque)

/-- Per-debris body of the debris branch of
`BuildingSlots.applyTornadoForces` (`src/scripts/controles_mov.js`, lines
205-237): query the field, apply the lift at `body.position`, apply the
horizontal component also at `body.position`, and add random wobble
`(Math.random()-0.5)*10` to the x and y torque accumulators; the field torque
is not used.  `rx`, `ry` are the two random draws. -/
noncomputable def BuildingSlots.applyTornadoForcesOnDebris (t : Tornado) (rx ry : ℝ)
    (b : BodyState) : List ForceApp × Vec3 :=
  let r := t.calculateForceOnObject b.position b.mass
  let lift : Vec3 := ⟨0, r.1.y, 0⟩
  let horizontal : Vec3 := ⟨r.1.x, 0, r.1.z⟩
  ([⟨lift, b.position⟩, ⟨horizontal, b.position⟩],
   ⟨b.torque.x + (rx - 0.5) * 10, b.torque.y + (ry - 0.5) * 10, b.torque.z⟩)

lemma lookup_assocUpdate (l : List (ℕ × α)) (k : ℕ) (v : α) :
    List.lookup k (assocUpdate l k v) = (List.lookup k l).map (fun _ => v) := by
  induction l with
  | nil => rfl
  | cons kv rest ih =>
      obtain ⟨k1, v1⟩ := kv
      by_cases h : k1 = k
      · subst h
        have hstep : assocUpdate ((k1, v1) :: rest) k1 v = (k1, v) :: assocUpdate rest k1 v := by
          simp [assocUpdate]
        rw [hstep]
        simp [List.lookup]
      · have hbeq : (k == k1) = false := by
          rw [beq_eq_false_iff_ne]
          exact fun he => h he.symm
        have hstep : assocUpdate ((k1, v1) :: rest) k v = (k1, v1) :: assocUpdate rest k v := by
          simp [assocUpdate, h]
        rw [hstep]
        simp only [List.lookup, hbeq]
        exact ih

/-- The debris-piece loop never touches the `buildingVisuals` registry. -/
lemma processFold_buildingVisuals (dm : ℝ) :
    ∀ (ms : List MeshData) (st : BuildingSlots) (fr : List Fragment),
      ((ms.foldl (processDebrisPiece dm) (st, fr)).1).buildingVisuals = st.buildingVisuals := by
  intro ms
  induction ms with
  | nil => intro st fr; rfl
  | cons m rest ih =>
      intro st fr
      exact ih _ _

/-- After a successful non-trivial `damageBuilding`, the registry entry of the
building exists and carries `damaged = true`. -/
lemma damageBuilding_lookup_damaged (loadRes : Except Unit GltfData) (id : ℕ)
    (s : BuildingSlots) (b : BuildingRec)
    (hb : List.lookup id s.buildingVisuals = some b) (hnd : b.damaged = false) :
    (List.lookup id (BuildingSlots.damageBuilding loadRes id s).buildingVisuals).map
        (fun b2 => b2.damaged) = some true := by
  unfold BuildingSlots.damageBuilding
  simp only [hb, hnd, Bool.false_eq_true, if_false]
  cases hbb : b.body with
  | none =>
      cases loadRes with
      | error e =>
          simp only [ModelLoader.load]
          rw [lookup_assocUpdate, hb]
          simp
      | ok g =>
          simp only [ModelLoader.load]
          rw [lookup_assocUpdate, processFold_buildingVisuals, lookup_assocUpdate, hb]
          simp
  | some bid =>
      cases loadRes with
      | error e =>
          simp only [ModelLoader.load]
          rw [lookup_assocUpdate, hb]
          simp
      | ok g =>
          simp only [ModelLoader.load]
          rw [lookup_assocUpdate, processFold_buildingVisuals, lookup_assocUpdate, hb]
          simp

/-- The operation `damageBuilding` is a no-op when the id is unknown or the entry already
damaged. -/
lemma damageBuilding_noop (loadRes : Except Unit GltfData) (id : ℕ) (s : BuildingSlots)
    (h : ∀ b, List.lookup id s.buildingVisuals = some b → b.damaged = true) :
    BuildingSlots.damageBuilding loadRes id s = s := by
  unfold BuildingSlots.damageBuilding
  cases hl : List.lookup id s.buildingVisuals with
  | none => rfl
  | some b => simp [h b hl]

/-- C5: the Intact-to-Damaged transition is idempotent: a second
`damageBuilding` on the same building id (with any loader outcome) leaves the
state of the first invocation entirely unchanged, so two sequential
invocations produce exactly one set of fragments. -/
theorem damageBuilding_idem (r1 r2 : Except Unit GltfData) (id : ℕ) (s : BuildingSlots) :
    BuildingSlots.damageBuilding r2 id (BuildingSlots.damageBuilding r1 id s)
      = BuildingSlots.damageBuilding r1 id s := by
  apply damageBuilding_noop
  intro b2 hb2
  cases hl : List.lookup id s.buildingVisuals with
  | none =>
      have hfix : BuildingSlots.damageBuilding r1 id s = s :=
        damageBuilding_noop r1 id s (fun b hb => by rw [hl] at hb; cases hb)
      rw [hfix, hl] at hb2
      cases hb2
  | some b =>
      by_cases hd : b.damaged = true
      · have hfix : BuildingSlots.damageBuilding r1 id s = s :=
          damageBuilding_noop r1 id s (fun b3 hb3 => by
            rw [hl] at hb3
            cases hb3
            exact hd)
        rw [hfix, hl] at hb2
        cases hb2
        exact hd
      · have hnd : b.damaged = false := by
          cases hbd : b.damaged
          · rfl
          · exact absurd hbd hd
        have hdam := damageBuilding_lookup_damaged r1 id s b hl hnd
        rw [hb2] at hdam
        simpa using hdam

/-- Evaluation of `damageBuilding` when the broken-model load rejects: the
transition is not rolled back.  The damaged flag stays set, the intact visual
stays removed from the scene, the fragment list stays as it was, one
diagnostic is logged, and (for buildings placed through `placeBuilding`,
whose tracked body reference is `undefined`) the physics world is not
touched. -/
lemma damageBuilding_error_eq (s : BuildingSlots) (id : ℕ) (b : BuildingRec) (e : Unit)
    (hb : List.lookup id s.buildingVisuals = some b)
    (hnd : b.damaged = false) (hbody : b.body = none) :
    BuildingSlots.damageBuilding (.error e) id s =
      { s with
        buildingVisuals := assocUpdate s.buildingVisuals id ({ b with damaged := true }),
        scene := s.scene.erase b.visualId,
        errlog := s.errlog + 1 } := by
  unfold BuildingSlots.damageBuilding
  simp only [hb, hnd, Bool.false_eq_true, if_false, hbody, ModelLoader.load]

/-- C6 as amended: if the broken-model load rejects during a destruction
transition, the call still returns normally and the failure is only logged,
and the fragment list stays empty; but the prior state is not restored: the
damaged flag is already set and the intact visual already removed from the
scene (the intact body reference stored by `placeBuilding` is `undefined`, so
no body is removed from the world either way). -/
theorem damage_load_failure_amended (s : BuildingSlots) (id : ℕ) (b : BuildingRec) (e : Unit)
    (hb : List.lookup id s.buildingVisuals = some b)
    (hnd : b.damaged = false) (hbody : b.body = none) :
    BuildingSlots.damageBuilding (.error e) id s =
      { s with
        buildingVisuals := assocUpdate s.buildingVisuals id ({ b with damaged := true }),
        scene := s.scene.erase b.visualId,
        errlog := s.errlog + 1 } :=
  damageBuilding_error_eq s id b e hb hnd hbody

/-- Default scene-object state for concrete registry states. -/
noncomputable def objDefault : ObjState :=
  { pos := ⟨0, 0, 0⟩, quat := ⟨0, 0, 0, 1⟩, scale := ⟨1, 1, 1⟩, visible := true }

/-- A placed, not-yet-damaged building record (body reference `undefined` as
stored by `placeBuilding`). -/
noncomputable def brecC6 : BuildingRec :=
  { visualId := 10, body := none, type := 7, slotId := 0, intact := 100, cracked := 101,
    damaged := false, crackedBodies := [], originalPosition := ⟨0, 0, 0⟩ }

/-- Concrete registry state holding one intact building whose visual (id 10)
is in the scene. -/
noncomputable def sC6 : BuildingSlots :=
  { slots := fun _ => none, buildings := [], buildingVisuals := [(1, brecC6)],
    slotVisuals := fun _ => 0, visuals := fun _ => objDefault, bodyProps := fun _ => none,
    scene := [10], world := [], loadedModels := [], nextId := 50, errlog := 0 }

/-- Counterexample for C6: after a rejected load during the destruction of
building 1, the damaged flag is `true` (the claim says it stays `false`) and
the intact visual is no longer in the scene (the claim says it stays). -/
theorem damage_load_failure_counterexample :
    ((List.lookup 1 (BuildingSlots.damageBuilding (.error ()) 1 sC6).buildingVisuals).map
        (fun b => b.damaged)) = some true ∧
    10 ∉ (BuildingSlots.damageBuilding (.error ()) 1 sC6).scene := by
  rw [damageBuilding_error_eq sC6 1 brecC6 () rfl rfl rfl]
  constructor
  · rfl
  · show 10 ∉ List.erase [10] 10
    simp

/-- Witness for the amended C6 theorem at the concrete state `sC6`. -/
theorem damage_load_failure_witness :
    (List.lookup 1 sC6.buildingVisuals = some brecC6) ∧ brecC6.damaged = false ∧
    brecC6.body = none ∧
    BuildingSlots.damageBuilding (.error ()) 1 sC6 =
      { sC6 with
        buildingVisuals := assocUpdate sC6.buildingVisuals 1 ({ brecC6 with damaged := true }),
        scene := sC6.scene.erase brecC6.visualId,
        errlog := sC6.errlog + 1 } :=
  ⟨rfl, rfl, rfl, damage_load_failure_amended sC6 1 brecC6 () rfl rfl rfl⟩

lemma placeBuilding_unknown_slot (slotId buildingType freshBuildingId : ℕ)
    (loadRes : Except Unit GltfData) (s : BuildingSlots) (h : s.slots slotId = none) :
    BuildingSlots.placeBuilding slotId buildingType freshBuildingId loadRes s
      = .error .typeError := by
  unfold BuildingSlots.placeBuilding
  simp only [h]

lemma demolishBuilding_unknown_slot (slotId : ℕ) (s : BuildingSlots)
    (h : s.slots slotId = none) :
    BuildingSlots.demolishBuilding slotId s = .error .typeError := by
  unfold BuildingSlots.demolishBuilding
  simp only [h]

/-- Counterexample for C7: `demolishBuilding` addressed to an unregistered
slot id does not return normally; reading `slot.occupied` of `undefined`
raises a `TypeError` (and likewise for `placeBuilding`). -/
theorem unknown_reference_counterexample :
    BuildingSlots.demolishBuilding 5 sC6 = Except.error JsErr.typeError ∧
    BuildingSlots.placeBuilding 5 7 1 (.error ()) sC6 = Except.error JsErr.typeError :=
  ⟨demolishBuilding_unknown_slot 5 sC6 rfl,
   placeBuilding_unknown_slot 5 7 1 (.error ()) sC6 rfl⟩

/-- C7 as amended: `damageBuilding` with an unregistered building id is a
state-preserving no-op, but `placeBuilding` and `demolishBuilding` with an
unregistered slot id raise a `TypeError` (property access on `undefined`)
before changing any state. -/
theorem unknown_reference_behavior (s : BuildingSlots) (bid sid btype fresh : ℕ)
    (r : Except Unit GltfData)
    (hb : List.lookup bid s.buildingVisuals = none) (hs : s.slots sid = none) :
    BuildingSlots.damageBuilding r bid s = s ∧
    BuildingSlots.placeBuilding sid btype fresh r s = .error .typeError ∧
    BuildingSlots.demolishBuilding sid s = .error .typeError :=
  ⟨damageBuilding_noop r bid s (fun b hbb => by rw [hb] at hbb; cases hbb),
   placeBuilding_unknown_slot sid btype fresh r s hs,
   demolishBuilding_unknown_slot sid s hs⟩

/-- Witness for the amended C7 theorem at the concrete state `sC6`. -/
theorem unknown_reference_behavior_witness :
    (List.lookup 99 sC6.buildingVisuals = none) ∧ (sC6.slots 5 = none) ∧
    (BuildingSlots.damageBuilding (.error ()) 99 sC6 = sC6 ∧
     BuildingSlots.placeBuilding 5 7 1 (.error ()) sC6 = .error .typeError ∧
     BuildingSlots.demolishBuilding 5 sC6 = .error .typeError) :=
  ⟨rfl, rfl, unknown_reference_behavior sC6 99 5 7 1 (.error ()) rfl rfl⟩

/-- Modelled from the claim's words (for comparison with the code): the
planar, y-ignoring, horizontal distance between two points. -/
noncomputable def planarDistanceXZ (a b : Vec3) : ℝ :=
  Real.sqrt ((a.x - b.x) ^ 2 + (a.z - b.z) ^ 2)

lemma updFun_ne (f : ℕ → α) (k : ℕ) (v : α) (w : ℕ) (h : k ≠ w) : updFun f k v w = f w := by
  unfold updFun
  rw [if_neg]
  exact fun he => h he.symm

lemma lookup_assocUpdate_ne (l : List (ℕ × α)) (k k2 : ℕ) (v : α) (h : k ≠ k2) :
    List.lookup k (assocUpdate l k2 v) = List.lookup k l := by
  induction l with
  | nil => rfl
  | cons kv rest ih =>
      obtain ⟨k1, v1⟩ := kv
      by_cases h1 : k1 = k2
      · subst h1
        have hbeq : (k == k1) = false := by
          rw [beq_eq_false_iff_ne]
          exact h
        have hstep : assocUpdate ((k1, v1) :: rest) k1 v = (k1, v) :: assocUpdate rest k1 v := by
          simp [assocUpdate]
        rw [hstep]
        simp only [List.lookup, hbeq]
        exact ih
      · have hstep : assocUpdate ((k1, v1) :: rest) k2 v = (k1, v1) :: assocUpdate rest k2 v := by
          simp [assocUpdate, h1]
        rw [hstep]
        by_cases h2 : k = k1
        · subst h2
          simp [List.lookup]
        · have hbeq : (k == k1) = false := by
            rw [beq_eq_false_iff_ne]
            exact h2
          simp only [List.lookup, hbeq]
          exact ih

lemma mem_keys_of_lookup {β : Type} (k : ℕ) (v : β) :
    ∀ (l : List (ℕ × β)), List.lookup k l = some v → k ∈ l.map Prod.fst := by
  intro l
  induction l with
  | nil => intro h; cases h
  | cons kv rest ih =>
      intro h
      obtain ⟨k1, v1⟩ := kv
      by_cases he : k = k1
      · subst he
        exact List.mem_cons_self _ _
      · have hbeq : (k == k1) = false := by
          rw [beq_eq_false_iff_ne]
          exact he
        simp only [List.lookup, hbeq] at h
        exact List.mem_cons_of_mem _ (ih h)

/-- The debris-piece loop writes visuals only at the mesh ids of the loaded
pieces. -/
lemma processFold_visuals (dm : ℝ) (w : ℕ) :
    ∀ (ms : List MeshData) (st : BuildingSlots) (fr : List Fragment),
      (∀ m ∈ ms, m.meshId ≠ w) →
      ((ms.foldl (processDebrisPiece dm) (st, fr)).1).visuals w = st.visuals w := by
  intro ms
  induction ms with
  | nil => intro st fr _; rfl
  | cons m rest ih =>
      intro st fr h
      have hm : m.meshId ≠ w := h m (List.mem_cons_self m rest)
      have hrest : ∀ m2 ∈ rest, m2.meshId ≠ w := fun m2 hm2 => h m2 (List.mem_cons_of_mem m hm2)
      rw [List.foldl_cons, ih _ _ hrest]
      exact updFun_ne _ _ _ _ hm

/-- A `damageBuilding` call addressed to another building id does not change
the registry entry of this one. -/
lemma damageBuilding_lookup_other (r : Except Unit GltfData) (id id2 : ℕ)
    (st : BuildingSlots) (hne : id ≠ id2) :
    List.lookup id (BuildingSlots.damageBuilding r id2 st).buildingVisuals
      = List.lookup id st.buildingVisuals := by
  unfold BuildingSlots.damageBuilding
  cases hl : List.lookup id2 st.buildingVisuals with
  | none => rfl
  | some b2 =>
      cases hbd : b2.damaged with
      | true => simp [hbd]
      | false =>
          simp only [hbd, Bool.false_eq_true, if_false]
          cases hbb : b2.body with
          | none =>
              cases r with
              | error e =>
                  simp only [ModelLoader.load]
                  exact lookup_assocUpdate_ne st.buildingVisuals id id2 _ hne
              | ok g =>
                  simp only [ModelLoader.load]
                  rw [lookup_assocUpdate_ne _ _ _ _ hne, processFold_buildingVisuals,
                    lookup_assocUpdate_ne _ _ _ _ hne]
          | some bid =>
              cases r with
              | error e =>
                  simp only [ModelLoader.load]
                  exact lookup_assocUpdate_ne st.buildingVisuals id id2 _ hne
              | ok g =>
                  simp only [ModelLoader.load]
                  rw [lookup_assocUpdate_ne _ _ _ _ hne, processFold_buildingVisuals,
                    lookup_assocUpdate_ne _ _ _ _ hne]

/-- A `damageBuilding` call whose loader outcome creates only objects with
ids different from `w` does not move the visual `w`.  This reflects object
identity: the loader's cracked root and mesh pieces are fresh objects,
distinct from already-registered visuals. -/
lemma damageBuilding_visuals_other (r : Except Unit GltfData) (id2 : ℕ)
    (st : BuildingSlots) (w : ℕ)
    (hfr : ∀ g, r = .ok g → g.rootId ≠ w ∧ ∀ m ∈ g.meshes, m.meshId ≠ w) :
    (BuildingSlots.damageBuilding r id2 st).visuals w = st.visuals w := by
  unfold BuildingSlots.damageBuilding
  cases hl : List.lookup id2 st.buildingVisuals with
  | none => rfl
  | some b2 =>
      cases hbd : b2.damaged with
      | true => simp [hbd]
      | false =>
          simp only [hbd, Bool.false_eq_true, if_false]
          cases hbb : b2.body with
          | none =>
              cases r with
              | error e => simp only [ModelLoader.load]
              | ok g =>
                  obtain ⟨hroot, hmesh⟩ := hfr g rfl
                  simp only [ModelLoader.load]
                  rw [processFold_visuals _ _ _ _ _ hmesh]
                  simp only [updFun_ne _ _ _ _ hroot]
          | some bid =>
              cases r with
              | error e => simp only [ModelLoader.load]
              | ok g =>
                  obtain ⟨hroot, hmesh⟩ := hfr g rfl
                  simp only [ModelLoader.load]
                  rw [processFold_visuals _ _ _ _ _ hmesh]
                  simp only [updFun_ne _ _ _ _ hroot]

/-- A scan step for another building id does not change this building's
registry entry. -/
lemma damageScanStep_lookup_other (tpos : Vec3) (threshold : ℝ)
    (lr : ℕ → Except Unit GltfData) (st : BuildingSlots) (id j : ℕ) (hne : id ≠ j) :
    List.lookup id (BuildingSlots.damageScanStep tpos threshold lr st j).buildingVisuals
      = List.lookup id st.buildingVisuals := by
  unfold BuildingSlots.damageScanStep
  cases hl : List.lookup j st.buildingVisuals with
  | none => rfl
  | some building =>
      by_cases hc : building.damaged = false ∧
          Vec3.distanceTo (st.visuals building.visualId).pos tpos < threshold
      · simp only [if_pos hc]
        exact damageBuilding_lookup_other (lr j) id j st hne
      · simp only [if_neg hc]

/-- A scan step whose loader outcome creates only fresh objects does not move
the visual `w`. -/
lemma damageScanStep_visuals_other (tpos : Vec3) (threshold : ℝ)
    (lr : ℕ → Except Unit GltfData) (st : BuildingSlots) (j w : ℕ)
    (hfr : ∀ g, lr j = .ok g → g.rootId ≠ w ∧ ∀ m ∈ g.meshes, m.meshId ≠ w) :
    (BuildingSlots.damageScanStep tpos threshold lr st j).visuals w = st.visuals w := by
  unfold BuildingSlots.damageScanStep
  cases hl : List.lookup j st.buildingVisuals with
  | none => rfl
  | some building =>
      by_cases hc : building.damaged = false ∧
          Vec3.distanceTo (st.visuals building.visualId).pos tpos < threshold
      · simp only [if_pos hc]
        exact damageBuilding_visuals_other (lr j) j st w hfr
      · simp only [if_neg hc]

/-- Folding scan steps over keys not containing `id` preserves `id`'s
registry entry. -/
lemma scanFold_lookup_preserve (tpos : Vec3) (threshold : ℝ)
    (lr : ℕ → Except Unit GltfData) (id : ℕ) :
    ∀ (ks : List ℕ) (st : BuildingSlots), id ∉ ks →
      List.lookup id
          ((ks.foldl (BuildingSlots.damageScanStep tpos threshold lr) st)).buildingVisuals
        = List.lookup id st.buildingVisuals := by
  intro ks
  induction ks with
  | nil => intro st _; rfl
  | cons j rest ih =>
      intro st hid
      have hne : id ≠ j := fun he => hid (he ▸ List.mem_cons_self j rest)
      have hid2 : id ∉ rest := fun hm => hid (List.mem_cons_of_mem j hm)
      rw [List.foldl_cons, ih _ hid2, damageScanStep_lookup_other tpos threshold lr st id j hne]

/-- Folding scan steps whose loader outcomes create only fresh objects never
moves the visual `w`. -/
lemma scanFold_visuals_preserve (tpos : Vec3) (threshold : ℝ)
    (lr : ℕ → Except Unit GltfData) (w : ℕ) :
    ∀ (ks : List ℕ) (st : BuildingSlots),
      (∀ j ∈ ks, ∀ g, lr j = .ok g → g.rootId ≠ w ∧ ∀ m ∈ g.meshes, m.meshId ≠ w) →
      ((ks.foldl (BuildingSlots.damageScanStep tpos threshold lr) st)).visuals w
        = st.visuals w := by
  intro ks
  induction ks with
  | nil => intro st _; rfl
  | cons j rest ih =>
      intro st h
      have hj := h j (List.mem_cons_self j rest)
      have hrest : ∀ j2 ∈ rest, ∀ g, lr j2 = .ok g →
          g.rootId ≠ w ∧ ∀ m ∈ g.meshes, m.meshId ≠ w :=
        fun j2 hj2 => h j2 (List.mem_cons_of_mem j hj2)
      rw [List.foldl_cons, ih _ hrest, damageScanStep_visuals_other tpos threshold lr st j w hj]

/-- Evaluation of the per-frame damage scan over an arbitrary registry: a
registered building ends up damaged exactly when it was already damaged or
its full 3D distance to the tornado position is below the threshold.  The
keys are distinct (JS object keys are unique) and the loader outcomes create
only fresh objects (distinct from this building's registered visual). -/
lemma damageScan_lookup_damaged_iff (s : BuildingSlots) (tpos : Vec3) (threshold : ℝ)
    (lr : ℕ → Except Unit GltfData) (id : ℕ) (b : BuildingRec)
    (hkeys : (s.buildingVisuals.map Prod.fst).Nodup)
    (hb : List.lookup id s.buildingVisuals = some b)
    (hfresh : ∀ j ∈ s.buildingVisuals.map Prod.fst, ∀ g, lr j = .ok g →
        g.rootId ≠ b.visualId ∧ ∀ m ∈ g.meshes, m.meshId ≠ b.visualId) :
    ((List.lookup id (BuildingSlots.damageScan tpos threshold lr s).buildingVisuals).map
        (fun b2 => b2.damaged) = some true) ↔
      (b.damaged = true ∨
        Vec3.distanceTo (s.visuals b.visualId).pos tpos < threshold) := by
  have hidmem : id ∈ s.buildingVisuals.map Prod.fst := mem_keys_of_lookup id b _ hb
  obtain ⟨ks1, ks2, hsplit⟩ := List.append_of_mem hidmem
  unfold BuildingSlots.damageScan
  rw [hsplit] at hkeys
  obtain ⟨hnd1, hnd2, hdisj⟩ := List.nodup_append.mp hkeys
  have hid1 : id ∉ ks1 := fun hm => hdisj hm (List.mem_cons_self id ks2)
  have hid2 : id ∉ ks2 := (List.nodup_cons.mp hnd2).1
  have hfr1 : ∀ j ∈ ks1, ∀ g, lr j = .ok g →
      g.rootId ≠ b.visualId ∧ ∀ m ∈ g.meshes, m.meshId ≠ b.visualId := by
    intro j hj
    apply hfresh
    rw [hsplit]
    exact List.mem_append.mpr (Or.inl hj)
  rw [hsplit, List.foldl_append, List.foldl_cons]
  set st1 := ks1.foldl (BuildingSlots.damageScanStep tpos threshold lr) s with hst1
  have hlk1 : List.lookup id st1.buildingVisuals = some b := by
    rw [hst1, scanFold_lookup_preserve tpos threshold lr id ks1 s hid1, hb]
  have hvis1 : st1.visuals b.visualId = s.visuals b.visualId := by
    rw [hst1]
    exact scanFold_visuals_preserve tpos threshold lr b.visualId ks1 s hfr1
  by_cases hd : b.damaged = true
  · have hcondF : ¬ (b.damaged = false ∧
        Vec3.distanceTo (st1.visuals b.visualId).pos tpos < threshold) := by
      rintro ⟨h1, _⟩
      rw [hd] at h1
      cases h1
    have hstep : BuildingSlots.damageScanStep tpos threshold lr st1 id = st1 := by
      unfold BuildingSlots.damageScanStep
      simp only [hlk1]
      rw [if_neg hcondF]
    rw [hstep, scanFold_lookup_preserve tpos threshold lr id ks2 st1 hid2, hlk1]
    simp [hd]
  · have hndF : b.damaged = false := by
      cases hbd : b.damaged
      · rfl
      · exact absurd hbd hd
    by_cases hdist : Vec3.distanceTo (s.visuals b.visualId).pos tpos < threshold
    · have hcondT : b.damaged = false ∧
          Vec3.distanceTo (st1.visuals b.visualId).pos tpos < threshold := by
        refine ⟨hndF, ?_⟩
        rw [hvis1]
        exact hdist
      have hstep : BuildingSlots.damageScanStep tpos threshold lr st1 id
          = BuildingSlots.damageBuilding (lr id) id st1 := by
        unfold BuildingSlots.damageScanStep
        simp only [hlk1]
        rw [if_pos hcondT]
      rw [hstep, scanFold_lookup_preserve tpos threshold lr id ks2 _ hid2,
        damageBuilding_lookup_damaged (lr id) id st1 b hlk1 hndF]
      simp [hdist]
    · have hcondF : ¬ (b.damaged = false ∧
          Vec3.distanceTo (st1.visuals b.visualId).pos tpos < threshold) := by
        rintro ⟨_, h2⟩
        rw [hvis1] at h2
        exact hdist h2
      have hstep : BuildingSlots.damageScanStep tpos threshold lr st1 id = st1 := by
        unfold BuildingSlots.damageScanStep
        simp only [hlk1]
        rw [if_neg hcondF]
      rw [hstep, scanFold_lookup_preserve tpos threshold lr id ks2 st1 hid2, hlk1]
      simp only [Option.map_some']
      constructor
      · intro hsome
        exact absurd (Option.some.inj hsome) hd
      · rintro (h1 | h2)
        · exact absurd h1 hd
        · exact absurd h2 hdist

/-- C8 as amended: for every registered, not-yet-damaged building of an
arbitrary registry (keys distinct, loader outcomes fresh), the per-frame
damage scan triggers the destruction transition exactly when the full 3D
Euclidean distance (not the planar distance) between the building's visual
position and the tornado position falls below the damage threshold; an
already-damaged building stays damaged. -/
theorem damage_scan_behavior (s : BuildingSlots) (tpos : Vec3) (threshold : ℝ)
    (lr : ℕ → Except Unit GltfData) (id : ℕ) (b : BuildingRec)
    (hkeys : (s.buildingVisuals.map Prod.fst).Nodup)
    (hb : List.lookup id s.buildingVisuals = some b)
    (hfresh : ∀ j ∈ s.buildingVisuals.map Prod.fst, ∀ g, lr j = .ok g →
        g.rootId ≠ b.visualId ∧ ∀ m ∈ g.meshes, m.meshId ≠ b.visualId) :
    ((List.lookup id (BuildingSlots.damageScan tpos threshold lr s).buildingVisuals).map
        (fun b2 => b2.damaged) = some true) ↔
      (b.damaged = true ∨
        Vec3.distanceTo (s.visuals b.visualId).pos tpos < threshold) :=
  damageScan_lookup_damaged_iff s tpos threshold lr id b hkeys hb hfresh

/-- A not-yet-damaged building whose visual has id 11. -/
noncomputable def brecC8 : BuildingRec :=
  { visualId := 11, body := none, type := 7, slotId := 0, intact := 100, cracked := 101,
    damaged := false, crackedBodies := [], originalPosition := ⟨0, 40, 0⟩ }

/-- Registry state with one building whose visual sits at `(0, 40, 0)` --
directly above a tornado at the origin. -/
noncomputable def sC8 : BuildingSlots :=
  { slots := fun _ => none, buildings := [], buildingVisuals := [(2, brecC8)],
    slotVisuals := fun _ => 0,
    visuals := fun j => if j = 11 then { objDefault with pos := ⟨0, 40, 0⟩ } else objDefault,
    bodyProps := fun _ => none,
    scene := [11], world := [], loadedModels := [], nextId := 50, errlog := 0 }

lemma distanceTo_C8 : Vec3.distanceTo (⟨0, 40, 0⟩ : Vec3) ⟨0, 0, 0⟩ = 40 := by
  simp only [Vec3.distanceTo, Vec3.sub, Vec3.length, Vec3.normSq]
  rw [show ((0:ℝ) - 0) ^ 2 + (40 - 0) ^ 2 + (0 - 0) ^ 2 = 40 ^ 2 by norm_num]
  exact Real.sqrt_sq (by norm_num)

lemma visuals_C8 : (sC8.visuals brecC8.visualId).pos = ⟨0, 40, 0⟩ := rfl

/-- Counterexample for C8: with the tornado at the origin and a building
visual at `(0, 40, 0)` (planar distance 0, below the threshold 30), the scan
does not damage the building, because the code measures the full 3D distance
(40, not below the threshold).  So the scan's trigger condition is not the
planar distance of the claim. -/
theorem damage_scan_planar_counterexample :
    planarDistanceXZ (sC8.visuals brecC8.visualId).pos ⟨0, 0, 0⟩ < 30 ∧
    ¬ ((List.lookup 2
          (BuildingSlots.damageScan ⟨0, 0, 0⟩ 30 (fun _ => .error ()) sC8).buildingVisuals).map
        (fun b2 => b2.damaged) = some true) := by
  constructor
  · rw [visuals_C8]
    simp only [planarDistanceXZ]
    rw [show ((0:ℝ) - 0) ^ 2 + (0 - 0) ^ 2 = 0 by norm_num]
    rw [Real.sqrt_zero]
    norm_num
  · have hkeys : (sC8.buildingVisuals.map Prod.fst).Nodup := by
      simp [sC8]
    have hfresh : ∀ j ∈ sC8.buildingVisuals.map Prod.fst,
        ∀ g, (fun _ => (Except.error () : Except Unit GltfData)) j = .ok g →
          g.rootId ≠ brecC8.visualId ∧ ∀ m ∈ g.meshes, m.meshId ≠ brecC8.visualId :=
      fun j hj g hg => Except.noConfusion hg
    rw [damageScan_lookup_damaged_iff sC8 ⟨0, 0, 0⟩ 30 (fun _ => .error ()) 2 brecC8
      hkeys rfl hfresh]
    rw [visuals_C8, distanceTo_C8]
    rintro (h1 | h2)
    · exact absurd h1 (by norm_num [brecC8])
    · norm_num at h2

/-- A second, distinct not-yet-damaged building (visual id 12). -/
noncomputable def brecC8b : BuildingRec :=
  { visualId := 12, body := none, type := 7, slotId := 1, intact := 100, cracked := 101,
    damaged := false, crackedBodies := [], originalPosition := ⟨0, 0, 0⟩ }

/-- Registry state with two registered buildings (keys 2 and 3), for the C8
witness over a multi-building registry. -/
noncomputable def sC8w : BuildingSlots :=
  { slots := fun _ => none, buildings := [], buildingVisuals := [(2, brecC8), (3, brecC8b)],
    slotVisuals := fun _ => 0,
    visuals := fun j => if j = 11 then { objDefault with pos := ⟨0, 40, 0⟩ } else objDefault,
    bodyProps := fun _ => none,
    scene := [11, 12], world := [], loadedModels := [], nextId := 50, errlog := 0 }

/-- Witness for the amended C8 theorem at a concrete two-building registry,
instantiated for the second building. -/
theorem damage_scan_behavior_witness :
    ((sC8w.buildingVisuals.map Prod.fst).Nodup) ∧
    (List.lookup 3 sC8w.buildingVisuals = some brecC8b) ∧
    (∀ j ∈ sC8w.buildingVisuals.map Prod.fst,
        ∀ g, (fun _ => (Except.error () : Except Unit GltfData)) j = .ok g →
          g.rootId ≠ brecC8b.visualId ∧ ∀ m ∈ g.meshes, m.meshId ≠ brecC8b.visualId) ∧
    ((List.lookup 3
        (BuildingSlots.damageScan ⟨0, 0, 0⟩ 30 (fun _ => .error ()) sC8w).buildingVisuals).map
        (fun b2 => b2.damaged) = some true ↔
      (brecC8b.damaged = true ∨
        Vec3.distanceTo (sC8w.visuals brecC8b.visualId).pos ⟨0, 0, 0⟩ < 30)) := by
  have hkeys : (sC8w.buildingVisuals.map Prod.fst).Nodup := by
    simp [sC8w]
  have hb : List.lookup 3 sC8w.buildingVisuals = some brecC8b := rfl
  have hfresh : ∀ j ∈ sC8w.buildingVisuals.map Prod.fst,
      ∀ g, (fun _ => (Except.error () : Except Unit GltfData)) j = .ok g →
        g.rootId ≠ brecC8b.visualId ∧ ∀ m ∈ g.meshes, m.meshId ≠ brecC8b.visualId :=
    fun j hj g hg => Except.noConfusion hg
  exact ⟨hkeys, hb, hfresh,
    damage_scan_behavior sC8w ⟨0, 0, 0⟩ 30 (fun _ => .error ()) 3 brecC8b hkeys hb hfresh⟩

/-- Evaluation of the `ModelLoader` force bridge for a dynamic body with
non-degenerate force components. -/
lemma modelLoader_apply_eq (t : Tornado) (b : BodyState)
    (hm : b.mass > 0)
    (hy : (t.calculateForceOnObject b.position b.mass).1.y ≠ 0)
    (hx : (t.calculateForceOnObject b.position b.mass).1.x ≠ 0) :
    ModelLoader.applyTornadoForcesOnBody t b =
      ([⟨⟨0, (t.calculateForceOnObject b.position b.mass).1.y, 0⟩, b.position⟩,
        ⟨⟨(t.calculateForceOnObject b.position b.mass).1.x, 0,
          (t.calculateForceOnObject b.position b.mass).1.z⟩,
         Vec3.add b.position ⟨0, 0.8, 0⟩⟩],
       ⟨b.torque.x + (t.calculateForceOnObject b.position b.mass).2.x,
        b.torque.y + (t.calculateForceOnObject b.position b.mass).2.y,
        b.torque.z + (t.calculateForceOnObject b.position b.mass).2.z⟩) := by
  unfold ModelLoader.applyTornadoForcesOnBody
  rw [if_pos hm, if_pos (Or.inl hx), if_pos hy, if_pos (Or.inl hx)]
  rfl

/-- Evaluation of the debris branch of `BuildingSlots.applyTornadoForces`:
both force components are applied at the body's position, and the torque
accumulator receives only the random x/y wobble (its z entry, and nothing of
the field torque, is added). -/
lemma debris_apply_eq (t : Tornado) (rx ry : ℝ) (b : BodyState) :
    BuildingSlots.applyTornadoForcesOnDebris t rx ry b =
      ([⟨⟨0, (t.calculateForceOnObject b.position b.mass).1.y, 0⟩, b.position⟩,
        ⟨⟨(t.calculateForceOnObject b.position b.mass).1.x, 0,
          (t.calculateForceOnObject b.position b.mass).1.z⟩, b.position⟩],
       ⟨b.torque.x + (rx - 0.5) * 10, b.torque.y + (ry - 0.5) * 10, b.torque.z⟩) := rfl

/-- C9 as amended: for loaded models the bridge splits the field force into a
lift at the body's center and a horizontal component at a fixed offset
`(0, 0.8, 0)` above the center, and adds the field torque to the accumulator;
but for debris fragments both components are applied at the body's center and
the field torque is discarded in favour of random x/y wobble (the z torque
accumulator is left unchanged). -/
theorem force_application_behavior (t : Tornado) (b : BodyState)
    (hm : b.mass > 0)
    (hy : (t.calculateForceOnObject b.position b.mass).1.y ≠ 0)
    (hx : (t.calculateForceOnObject b.position b.mass).1.x ≠ 0) :
    (ModelLoader.applyTornadoForcesOnBody t b =
      ([⟨⟨0, (t.calculateForceOnObject b.position b.mass).1.y, 0⟩, b.position⟩,
        ⟨⟨(t.calculateForceOnObject b.position b.mass).1.x, 0,
          (t.calculateForceOnObject b.position b.mass).1.z⟩,
         Vec3.add b.position ⟨0, 0.8, 0⟩⟩],
       ⟨b.torque.x + (t.calculateForceOnObject b.position b.mass).2.x,
        b.torque.y + (t.calculateForceOnObject b.position b.mass).2.y,
        b.torque.z + (t.calculateForceOnObject b.position b.mass).2.z⟩)) ∧
    ∀ rx ry, BuildingSlots.applyTornadoForcesOnDebris t rx ry b =
      ([⟨⟨0, (t.calculateForceOnObject b.position b.mass).1.y, 0⟩, b.position⟩,
        ⟨⟨(t.calculateForceOnObject b.position b.mass).1.x, 0,
          (t.calculateForceOnObject b.position b.mass).1.z⟩, b.position⟩],
       ⟨b.torque.x + (rx - 0.5) * 10, b.torque.y + (ry - 0.5) * 10, b.torque.z⟩) :=
  ⟨modelLoader_apply_eq t b hm hy hx, fun rx ry => debris_apply_eq t rx ry b⟩

/-- A debris body of mass 5 at `(15, 0, 0)` with a zero torque accumulator. -/
noncomputable def bodyC9 : BodyState := { mass := 5, position := ⟨15, 0, 0⟩, torque := ⟨0, 0, 0⟩ }

/-- Counterexample for C9: for a debris fragment inside the field, the torque
returned by `calculateForceOnObject` is not added to the accumulator (its z
component stays 0 although the field torque's z component is 2250), and the
horizontal force is applied at the body's center, which differs from the
offset point above the center required by the claim. -/
theorem debris_torque_counterexample :
    (BuildingSlots.applyTornadoForcesOnDebris tornadoC3 0.5 0.5 bodyC9).2.z = 0 ∧
    (tornadoC3.calculateForceOnObject bodyC9.position bodyC9.mass).2.z = 2250 ∧
    ((BuildingSlots.applyTornadoForcesOnDebris tornadoC3 0.5 0.5 bodyC9).1.map
        (fun a => a.point)) = [bodyC9.position, bodyC9.position] ∧
    bodyC9.position ≠ Vec3.add bodyC9.position ⟨0, 0.8, 0⟩ := by
  refine ⟨rfl, ?_, rfl, ?_⟩
  · have hpos : bodyC9.position = (⟨15, 0, 0⟩ : Vec3) := rfl
    have hmass : bodyC9.mass = 5 := rfl
    rw [hpos, hmass, calculateForceOnObject_C3]
  · intro h
    have hy : bodyC9.position.y = (Vec3.add bodyC9.position ⟨0, 0.8, 0⟩).y := by rw [← h]
    simp only [Vec3.add, bodyC9] at hy
    norm_num at hy

/-- Witness for the amended C9 theorem: the body `bodyC9` inside the C3
scenario field. -/
theorem force_application_behavior_witness :
    (bodyC9.mass > 0) ∧
    ((tornadoC3.calculateForceOnObject bodyC9.position bodyC9.mass).1.y ≠ 0) ∧
    ((tornadoC3.calculateForceOnObject bodyC9.position bodyC9.mass).1.x ≠ 0) ∧
    ((ModelLoader.applyTornadoForcesOnBody tornadoC3 bodyC9 =
      ([⟨⟨0, (tornadoC3.calculateForceOnObject bodyC9.position bodyC9.mass).1.y, 0⟩,
          bodyC9.position⟩,
        ⟨⟨(tornadoC3.calculateForceOnObject bodyC9.position bodyC9.mass).1.x, 0,
          (tornadoC3.calculateForceOnObject bodyC9.position bodyC9.mass).1.z⟩,
         Vec3.add bodyC9.position ⟨0, 0.8, 0⟩⟩],
       ⟨bodyC9.torque.x + (tornadoC3.calculateForceOnObject bodyC9.position bodyC9.mass).2.x,
        bodyC9.torque.y + (tornadoC3.calculateForceOnObject bodyC9.position bodyC9.mass).2.y,
        bodyC9.torque.z + (tornadoC3.calculateForceOnObject bodyC9.position bodyC9.mass).2.z⟩)) ∧
     ∀ rx ry, BuildingSlots.applyTornadoForcesOnDebris tornadoC3 rx ry bodyC9 =
      ([⟨⟨0, (tornadoC3.calculateForceOnObject bodyC9.position bodyC9.mass).1.y, 0⟩,
          bodyC9.position⟩,
        ⟨⟨(tornadoC3.calculateForceOnObject bodyC9.position bodyC9.mass).1.x, 0,
          (tornadoC3.calculateForceOnObject bodyC9.position bodyC9.mass).1.z⟩,
         bodyC9.position⟩],
       ⟨bodyC9.torque.x + (rx - 0.5) * 10, bodyC9.torque.y + (ry - 0.5) * 10,
        bodyC9.torque.z⟩)) := by
  have hpos : bodyC9.position = (⟨15, 0, 0⟩ : Vec3) := rfl
  have hmass : bodyC9.mass = 5 := rfl
  have hm : bodyC9.mass > 0 := by rw [hmass]; norm_num
  have hy : (tornadoC3.calculateForceOnObject bodyC9.position bodyC9.mass).1.y ≠ 0 := by
    rw [hpos, hmass, calculateForceOnObject_C3]
    norm_num
  have hx : (tornadoC3.calculateForceOnObject bodyC9.position bodyC9.mass).1.x ≠ 0 := by
    rw [hpos, hmass, calculateForceOnObject_C3]
    norm_num
  exact ⟨hm, hy, hx, force_application_behavior tornadoC3 bodyC9 hm hy hx⟩

/-- Unoccupied building slot at the origin. -/
noncomputable def slotC10 : Slot :=
  { position := ⟨0, 0, 0⟩, size := 1, occupied := false, buildingType := none,
    buildingId := none }

/-- Registered building type 7 with intact path 100 and broken path 101. -/
noncomputable def cfgC10 : BuildingCfg := { intact := 100, cracked := 101, debrisMass := 0.5 }

/-- Initial registry state for the C10 scenario: one empty slot (id 0, marker
visual 50), one registered building type, empty world. -/
noncomputable def s0C10 : BuildingSlots :=
  { slots := fun j => if j = 0 then some slotC10 else none,
    buildings := [(7, cfgC10)],
    buildingVisuals := [],
    slotVisuals := fun _ => 50,
    visuals := fun _ => objDefault,
    bodyProps := fun _ => none,
    scene := [50], world := [], loadedModels := [], nextId := 200, errlog := 0 }

/-- Loader data of the first intact model (root visual 60). -/
noncomputable def g1C10 : GltfData := { rootId := 60, rootBBoxSize := ⟨1, 1, 1⟩, meshes := [] }

/-- Loader data of the second intact model (root visual 61). -/
noncomputable def g2C10 : GltfData := { rootId := 61, rootBBoxSize := ⟨1, 1, 1⟩, meshes := [] }

/-- State after placing building 1 (type 7) on slot 0. -/
noncomputable def c10s1 : BuildingSlots :=
  ((BuildingSlots.placeBuilding 0 7 1 (.ok g1C10) s0C10).toOption).getD s0C10

/-- State after placing building 2 on the now-occupied slot 0. -/
noncomputable def c10s2 : BuildingSlots :=
  ((BuildingSlots.placeBuilding 0 7 2 (.ok g2C10) c10s1).toOption).getD s0C10

/-- C10 at the failing input: placing on an occupied slot is not rejected --
the old building is demolished (registry entry deleted, slot re-assigned) and
the new one placed -- but the demolition does not remove the old intact
physics body (id 200) from the world, because the building record stores
`modelData.body` which is `undefined` (the loader resolves `physics`), so the
body stays in the world after replacement. -/
theorem placeBuilding_replacement_leak :
    BuildingSlots.placeBuilding 0 7 1 (Except.ok g1C10) s0C10 = Except.ok c10s1 ∧
    (List.lookup 1 c10s1.buildingVisuals).map (fun b => b.body) = some none ∧
    PhysEntity.body 200 ∈ c10s1.world ∧
    BuildingSlots.placeBuilding 0 7 2 (Except.ok g2C10) c10s1 = Except.ok c10s2 ∧
    ((c10s2.slots 0).map (fun sl => sl.buildingId)) = some (some 2) ∧
    (List.lookup 1 c10s2.buildingVisuals).isNone = true ∧
    PhysEntity.body 200 ∈ c10s2.world := by
  refine ⟨rfl, rfl, ?_, rfl, rfl, rfl, ?_⟩
  · show PhysEntity.body 200 ∈ c10s1.world
    decide
  · show PhysEntity.body 200 ∈ c10s2.world
    decide

end Tjs
